import Mathlib

/-!
Shallow embedding of `src/stack.ts` of the keycloak-on-aws repository:
the `SolutionStack` parameter-group registry and the `KeycloakStack`
constructor (parameter declaration, grouping, and conditional settings
resolution), together with a resolution semantics for the deferred
CloudFormation parameter references that the constructor packages into
the settings handed to the external `KeyCloak` composer.
-/

set_option autoImplicit false

namespace KeycloakOnAws

/-- Default value attached to a CloudFormation parameter declaration
(the `default` entry of `CfnParameterProps`, of type `any` in the source:
the stack uses string defaults and number defaults). -/
inductive CfnDefault where
  | noDefault
  | str (s : String)
  | num (n : Int)
deriving DecidableEq, Repr

/-- The subset of `CfnParameterProps` used by `stack.ts`: `type`,
`description`, `minLength`, `minValue`, `allowedValues`, `default`. -/
structure CfnParameterProps where
  type : String
  description : String := ""
  minLength : Option Nat := Option.none
  minValue : Option Int := Option.none
  allowedValues : Option (List String) := Option.none
  defaultValue : CfnDefault := CfnDefault.noDefault
deriving DecidableEq, Repr

/-- A declared CloudFormation parameter: its logical id plus its
declaration props (`new CfnParameter(this, id, props)`). -/
structure CfnParameter where
  logicalId : String
  props : CfnParameterProps
deriving DecidableEq, Repr

/-- CDK derives a construct's logical id from its id by dropping
non-alphanumeric characters (so the construct id `Keycloak Version`
yields the logical id `KeycloakVersion`). -/
def logicalIdOf (id : String) : String :=
  String.mk (id.data.filter (fun c => c.isAlphanum))

/-- The `_paramGroup` field of `SolutionStack`: a string-keyed mapping
from group label to parameter array, iterated in key-insertion order
(JavaScript object semantics), where an array slot may hold an absent
(`undefined`) parameter. -/
abbrev GroupState := List (String × List (Option CfnParameter))

/-- One assignment `_paramGroup[key] = params.concat(_paramGroup[key] ?? [])`:
the new parameters are prepended before the ones already registered under
`key`; a fresh key is appended at the end of the insertion order. -/
def updateGroup : GroupState → String → List (Option CfnParameter) → GroupState
  | [], key, ps => [(key, ps)]
  | (k, v) :: rest, key, ps =>
    if k = key then (k, ps ++ v) :: rest
    else (k, v) :: updateGroup rest key ps

/-- `SolutionStack.addGroupParam`: fold the assignment above over the keys
of the argument object, in their insertion order. -/
def addGroupParam (g : GroupState) (calls : List (String × List (Option CfnParameter))) :
    GroupState :=
  calls.foldl (fun acc e => updateGroup acc e.1 e.2) g

/-- The identifier a parameter slot contributes in `_setParamGroups`:
`p ? p.logicalId : ''`. -/
def paramIdOrEmpty : Option CfnParameter → String
  | some p => p.logicalId
  | Option.none => ""

/-- The `Parameters` list that `mkgrp` builds for one group:
`params.map(p => p ? p.logicalId : '').filter(id => id)` — map each slot
to its logical id (or the empty string) and drop the falsy (empty)
entries. -/
def filtIds (ps : List (Option CfnParameter)) : List String :=
  (ps.map paramIdOrEmpty).filter (fun id => id != "")

/-- `SolutionStack._setParamGroups`: the `ParameterGroups` metadata list,
one `{ Label, Parameters }` entry per registered label in insertion
order, with the filtered identifier sequences. -/
def exportGroups (g : GroupState) : List (String × List String) :=
  g.map (fun e => (e.1, filtIds e.2))

/-- Deferred string-valued CloudFormation value, as packaged by the
constructor: a literal, a parameter reference (`valueAsString`), or
`Fn.select(i, param.valueAsList)` against a list-typed parameter. -/
inductive StrVal where
  | lit (s : String)
  | paramRef (id : String)
  | select (i : Nat) (id : String)
deriving DecidableEq, Repr

/-- Deferred number-valued CloudFormation value (`valueAsNumber`). -/
inductive NumVal where
  | paramRef (id : String)
deriving DecidableEq, Repr

/-- `ec2.InstanceType`: wraps the (deferred) instance-type string. -/
structure InstanceType where
  instanceTypeIdentifier : StrVal
deriving DecidableEq, Repr

/-- `ec2.SubnetSelection` with an explicit `subnets` list; each subnet is
represented by its (deferred) subnet id. -/
structure SubnetSelection where
  subnets : List StrVal
deriving DecidableEq, Repr

/-- The `ec2.IVpc` produced by `ec2.Vpc.fromVpcAttributes`: the vpc id and
the three imported subnet-id lists (public, private, isolated). -/
structure Vpc where
  vpcId : StrVal
  publicSubnetIds : List StrVal
  privateSubnetIds : List StrVal
  isolatedSubnetIds : List StrVal
deriving DecidableEq, Repr

/-- `core.Duration` as an amount plus unit; `Duration.days(n)` stores
`n` with unit days. -/
structure Duration where
  amount : Nat
  unit : String
deriving DecidableEq, Repr

def Duration.days (n : Nat) : Duration := { amount := n, unit := "days" }

/-- Modelled from the spec: the `KeycloakVersion` class lives in the
external `./keycloak` module (not under `src/`); per the spec it is a
version tag wrapped by the composer boundary. `KeycloakVersion.of` wraps
the (deferred) version string it is given. -/
structure KeycloakVersion where
  version : StrVal
deriving DecidableEq, Repr

def KeycloakVersion.of (v : StrVal) : KeycloakVersion := { version := v }

def KeycloakVersion.V12_0_4 : KeycloakVersion := { version := StrVal.lit "12.0.4" }

def KeycloakVersion.V15_0_0 : KeycloakVersion := { version := StrVal.lit "15.0.0" }

def KeycloakVersion.V15_0_1 : KeycloakVersion := { version := StrVal.lit "15.0.1" }

def KeycloakVersion.V15_0_2 : KeycloakVersion := { version := StrVal.lit "15.0.2" }

def KeycloakVersion.cbV15_0_2 : KeycloakVersion := { version := StrVal.lit "cb.15.0.2" }

/-- The `autoScaleTask` record handed to the composer. -/
structure AutoScaleTask where
  min : NumVal
  max : NumVal
  targetCpuUtilization : NumVal
deriving DecidableEq, Repr

/-- The `KeycloakSettings` record of `stack.ts`. -/
structure KeycloakSettings where
  certificateArn : StrVal
  vpc : Option Vpc := Option.none
  publicSubnets : Option SubnetSelection := Option.none
  privateSubnets : Option SubnetSelection := Option.none
  databaseSubnets : Option SubnetSelection := Option.none
  databaseInstanceType : Option InstanceType := Option.none
deriving DecidableEq, Repr

/-- The props record handed to `new KeyCloak(this, 'KeyCloak', …)`. -/
structure KeyCloakProps where
  vpc : Option Vpc
  publicSubnets : Option SubnetSelection
  privateSubnets : Option SubnetSelection
  databaseSubnets : Option SubnetSelection
  certificateArn : StrVal
  auroraServerless : Option Bool
  databaseInstanceType : Option InstanceType
  stickinessCookieDuration : Duration
  nodeCount : NumVal
  autoScaleTask : AutoScaleTask
  env : List (String × StrVal)
  keycloakVersion : KeycloakVersion
deriving DecidableEq, Repr

/-- `KeycloakStackProps`: the two optional mode flags (`undefined` when
omitted, as when the caller relies on the `= {}` default). -/
structure KeycloakStackProps where
  auroraServerless : Option Bool := Option.none
  fromExistingVPC : Option Bool := Option.none
deriving DecidableEq, Repr

/-- JavaScript truthiness of an optional boolean flag: `undefined` is
falsy, so `props.flag` is truthy exactly when it is `some true`. -/
def flagTrue (o : Option Bool) : Bool := o.getD false

/-- Everything one `KeycloakStack` construction produces: the template
description, the declared parameters in declaration order, the final
`_paramGroup` state, the resolved `KeycloakSettings`, and the props
handed to the external `KeyCloak` composer. -/
structure BuildResult where
  description : String
  params : List CfnParameter
  paramGroup : GroupState
  settings : KeycloakSettings
  composer : KeyCloakProps
deriving DecidableEq, Repr

/-- The `INSTANCE_TYPES` constant of `stack.ts`. -/
def INSTANCE_TYPES : List String := [
  "m5.large", "m5.xlarge", "m5.2xlarge", "m5.4xlarge", "m5.8xlarge",
  "m5a.xlarge", "m5a.2xlarge", "m5a.4xlarge", "m5a.8xlarge",
  "m5d.xlarge", "m5d.2xlarge", "m5d.4xlarge", "m5d.8xlarge",
  "m6g.xlarge", "m6g.2xlarge", "m6g.4xlarge", "m6g.8xlarge",
  "c5.xlarge", "c5.2xlarge", "c5.4xlarge", "c5.9xlarge",
  "c5d.xlarge", "c5d.2xlarge", "c5d.4xlarge", "c5d.9xlarge",
  "c5n.xlarge", "c5n.2xlarge", "c5n.4xlarge", "c5n.9xlarge",
  "c6g.xlarge", "c6g.2xlarge", "c6g.4xlarge", "c6g.8xlarge",
  "cc2.8xlarge",
  "z1d.xlarge", "z1d.2xlarge", "z1d.3xlarge", "z1d.6xlarge",
  "r5.large", "r5.xlarge", "r5.2xlarge", "r5.4xlarge", "r5.8xlarge",
  "r5a.xlarge", "r5a.2xlarge", "r5a.4xlarge", "r5a.8xlarge",
  "r5d.xlarge", "r5d.2xlarge", "r5d.4xlarge", "r5d.8xlarge",
  "r6g.xlarge", "r6g.2xlarge", "r6g.4xlarge", "r6g.8xlarge",
  "cr1.8xlarge",
  "i3.xlarge", "i3.2xlarge", "i3.4xlarge", "i3.8xlarge",
  "i3en.xlarge", "i3en.2xlarge", "i3en.3xlarge", "i3en.6xlarge",
  "d2.xlarge", "d2.2xlarge", "d2.4xlarge", "d2.8xlarge",
  "g4dn.xlarge", "g4dn.2xlarge", "g4dn.4xlarge", "g4dn.8xlarge",
  "p2.xlarge", "p2.8xlarge",
  "p3.2xlarge", "p3.8xlarge"]

/-- The `CertificateArn` parameter declaration. -/
def certificateArnParam : CfnParameter :=
  { logicalId := logicalIdOf "CertificateArn",
    props := { type := "String",
               description := "Certificate Arn for Application Load Balancer",
               minLength := some 5 } }

/-- The `DatabaseInstanceType` parameter declaration (only made when not
in aurora-serverless mode). -/
def databaseInstanceTypeParam : CfnParameter :=
  { logicalId := logicalIdOf "DatabaseInstanceType",
    props := { type := "String",
               description := "Instance type to be used for the core instances",
               allowedValues := some INSTANCE_TYPES,
               defaultValue := CfnDefault.str "r5.large" } }

/-- The `VpcId` parameter declaration (existing-VPC mode only). -/
def vpcIdParam : CfnParameter :=
  { logicalId := logicalIdOf "VpcId",
    props := { type := "AWS::EC2::VPC::Id", description := "Your VPC Id" } }

/-- The `PubSubnets` parameter declaration (existing-VPC mode only). -/
def pubSubnetsParam : CfnParameter :=
  { logicalId := logicalIdOf "PubSubnets",
    props := { type := "List<AWS::EC2::Subnet::Id>",
               description := "Public subnets (Choose two)" } }

/-- The `PrivSubnets` parameter declaration (existing-VPC mode only). -/
def privSubnetsParam : CfnParameter :=
  { logicalId := logicalIdOf "PrivSubnets",
    props := { type := "List<AWS::EC2::Subnet::Id>",
               description := "Private subnets (Choose two)" } }

/-- The `DBSubnets` parameter declaration (existing-VPC mode only). -/
def dbSubnetsParam : CfnParameter :=
  { logicalId := logicalIdOf "DBSubnets",
    props := { type := "List<AWS::EC2::Subnet::Id>",
               description := "Database subnets (Choose two)" } }

/-- The `MinContainers` parameter declaration. -/
def minContainersParam : CfnParameter :=
  { logicalId := logicalIdOf "MinContainers",
    props := { type := "Number",
               description := "minimum containers count",
               defaultValue := CfnDefault.num 2,
               minValue := some 2 } }

/-- The `MaxContainers` parameter declaration. -/
def maxContainersParam : CfnParameter :=
  { logicalId := logicalIdOf "MaxContainers",
    props := { type := "Number",
               description := "maximum containers count",
               defaultValue := CfnDefault.num 10,
               minValue := some 2 } }

/-- The `AutoScalingTargetCpuUtilization` parameter declaration. -/
def targetCpuUtilizationParam : CfnParameter :=
  { logicalId := logicalIdOf "AutoScalingTargetCpuUtilization",
    props := { type := "Number",
               description := "Auto scaling target cpu utilization",
               defaultValue := CfnDefault.num 75,
               minValue := some 0 } }

/-- The `JavaOpts` parameter declaration. -/
def javaOptsParam : CfnParameter :=
  { logicalId := logicalIdOf "JavaOpts",
    props := { type := "String",
               description := "JAVA_OPTS environment variable" } }

/-- The `Keycloak Version` parameter declaration. Its description merely
lists the supported versions in free text (rendering of the interpolated
`KeycloakVersion` constants); no `allowedValues` constraint is set. -/
def keycloakVersionParam : CfnParameter :=
  { logicalId := logicalIdOf "Keycloak Version",
    props := { type := "String",
               description := "List of Versions 12.0.4, 15.0.0, 15.0.1, 15.0.2, cb.15.0.2",
               defaultValue := CfnDefault.str "cb.15.0.2" } }

/-- The two availability zones assumed by the existing-VPC branch
(`const azs = ['a', 'b']`). -/
def azs : List String := ["a", "b"]

/-- The vpc imported by `ec2.Vpc.fromVpcAttributes` in the existing-VPC
branch: for each of the two availability zones, subnet `index` is
`Fn.select(index, …Param.valueAsList)`. -/
def vpcAttr : Vpc :=
  { vpcId := StrVal.paramRef vpcIdParam.logicalId,
    publicSubnetIds := azs.mapIdx (fun index _ => StrVal.select index pubSubnetsParam.logicalId),
    privateSubnetIds := azs.mapIdx (fun index _ => StrVal.select index privSubnetsParam.logicalId),
    isolatedSubnetIds := azs.mapIdx (fun index _ => StrVal.select index dbSubnetsParam.logicalId) }

/-- The `KeycloakStack` constructor, `props` defaulting to `{}` and
`processEnvVersion` standing for `process.env.VERSION`. It mirrors the
source statement by statement: description, certificate parameter, the
aurora-serverless conditional, the existing-VPC conditional, the
autoscaling, environment-variable and version parameters, and finally
the `new KeyCloak(…)` props. -/
def keycloakStackBuild (props : KeycloakStackProps := {}) (processEnvVersion : Option String) :
    BuildResult :=
  let dbMsg := if flagTrue props.auroraServerless then "using aurora serverless" else "rds mysql"
  let vpcMsg := if flagTrue props.fromExistingVPC then "existing vpc" else "new vpc"
  let description := "(SO8021) - Deploy keycloak " ++ dbMsg ++ " with " ++ vpcMsg ++
    ". template version: " ++ processEnvVersion.getD "undefined"
  let g1 := addGroupParam [] [("Application Load Balancer Settings", [some certificateArnParam])]
  let settings1 : KeycloakSettings :=
    { certificateArn := StrVal.paramRef certificateArnParam.logicalId }
  let (g2, settings2, params2) :=
    if flagTrue props.auroraServerless then
      (g1, settings1, [certificateArnParam])
    else
      (addGroupParam g1 [("Database Instance Settings", [some databaseInstanceTypeParam])],
       { settings1 with
           databaseInstanceType :=
             some { instanceTypeIdentifier :=
                      StrVal.paramRef databaseInstanceTypeParam.logicalId } },
       [certificateArnParam, databaseInstanceTypeParam])
  let (g3, settings3, params3) :=
    if flagTrue props.fromExistingVPC then
      (addGroupParam g2 [("VPC Settings",
         [some vpcIdParam, some pubSubnetsParam, some privSubnetsParam, some dbSubnetsParam])],
       { settings2 with
           vpc := some vpcAttr,
           publicSubnets := some { subnets := vpcAttr.publicSubnetIds },
           privateSubnets := some { subnets := vpcAttr.privateSubnetIds },
           databaseSubnets := some { subnets := vpcAttr.isolatedSubnetIds } },
       params2 ++ [vpcIdParam, pubSubnetsParam, privSubnetsParam, dbSubnetsParam])
    else
      (g2, settings2, params2)
  let g4 := addGroupParam g3 [("AutoScaling Settings",
    [some minContainersParam, some maxContainersParam, some targetCpuUtilizationParam])]
  let g5 := addGroupParam g4 [("Environment variable", [some javaOptsParam])]
  let g6 := addGroupParam g5 [("Keycloak Version", [some keycloakVersionParam])]
  let params : List CfnParameter := params3 ++
    [minContainersParam, maxContainersParam, targetCpuUtilizationParam,
     javaOptsParam, keycloakVersionParam]
  let composer : KeyCloakProps :=
    { vpc := settings3.vpc,
      publicSubnets := settings3.publicSubnets,
      privateSubnets := settings3.privateSubnets,
      databaseSubnets := settings3.databaseSubnets,
      certificateArn := settings3.certificateArn,
      auroraServerless := props.auroraServerless,
      databaseInstanceType := settings3.databaseInstanceType,
      stickinessCookieDuration := Duration.days 7,
      nodeCount := NumVal.paramRef minContainersParam.logicalId,
      autoScaleTask :=
        { min := NumVal.paramRef minContainersParam.logicalId,
          max := NumVal.paramRef maxContainersParam.logicalId,
          targetCpuUtilization := NumVal.paramRef targetCpuUtilizationParam.logicalId },
      env := [("JAVA_OPTS", StrVal.paramRef javaOptsParam.logicalId)],
      keycloakVersion :=
        KeycloakVersion.of (StrVal.paramRef keycloakVersionParam.logicalId) }
  { description := description,
    params := params,
    paramGroup := g6,
    settings := settings3,
    composer := composer }

/-- Values supplied at template-instantiation time: an optional string
per string-typed parameter, an optional list per list-typed parameter,
and an optional number per number-typed parameter. -/
structure Env where
  strs : String → Option String
  lists : String → Option (List String)
  nums : String → Option Int

/-- Look up a declared parameter by logical id. -/
def findParam (ps : List CfnParameter) (id : String) : Option CfnParameter :=
  ps.find? (fun p => p.logicalId == id)

/-- String default carried by a declaration, if any. -/
def defaultStr : CfnDefault → Option String
  | CfnDefault.str s => some s
  | _ => Option.none

/-- Number default carried by a declaration, if any. -/
def defaultNum : CfnDefault → Option Int
  | CfnDefault.num n => some n
  | _ => Option.none

/-- Resolve a deferred string value against the declared parameters and
the supplied values: a parameter reference takes the supplied value, or
the declared default when unspecified; `Fn.select(i, list)` takes entry
`i` of the supplied list. -/
def resolveStrVal (ps : List CfnParameter) (env : Env) : StrVal → Option String
  | StrVal.lit s => some s
  | StrVal.paramRef id =>
      (findParam ps id).bind (fun p =>
        (env.strs id).orElse (fun _ => defaultStr p.props.defaultValue))
  | StrVal.select i id =>
      (findParam ps id).bind (fun _ =>
        (env.lists id).bind (fun l => l[i]?))

/-- Resolve a deferred number value: the supplied value, or the declared
default when unspecified. -/
def resolveNumVal (ps : List CfnParameter) (env : Env) : NumVal → Option Int
  | NumVal.paramRef id =>
      (findParam ps id).bind (fun p =>
        (env.nums id).orElse (fun _ => defaultNum p.props.defaultValue))

/-- Resolve a list of deferred string values, failing when any entry
fails. -/
def resolveStrVals (ps : List CfnParameter) (env : Env) : List StrVal → Option (List String)
  | [] => some []
  | x :: xs =>
      (resolveStrVal ps env x).bind (fun s =>
        (resolveStrVals ps env xs).map (fun ss => s :: ss))

/-- Resolve every subnet id of a subnet selection. -/
def resolveSelection (ps : List CfnParameter) (env : Env) (sel : SubnetSelection) :
    Option (List String) :=
  resolveStrVals ps env sel.subnets

/-- A sequence of `addGroupParam` calls against the same group label,
in call order, starting from the empty registry. -/
def registerCalls (label : String) (calls : List (List (Option CfnParameter))) : GroupState :=
  calls.foldl (fun g ps => addGroupParam g [(label, ps)]) []

/-- The raw parameter list currently registered under a label (empty when
the label is not registered). -/
def rawGroup (g : GroupState) (label : String) : List (Option CfnParameter) :=
  ((g.find? (fun e => e.1 == label)).map Prod.snd).getD []

theorem rawGroup_updateGroup_self (g : GroupState) (key : String)
    (ps : List (Option CfnParameter)) :
    rawGroup (updateGroup g key ps) key = ps ++ rawGroup g key := by
  induction g with
  | nil => simp [updateGroup, rawGroup]
  | cons hd tl ih =>
    obtain ⟨k, v⟩ := hd
    by_cases hk : k = key
    · subst hk
      simp [updateGroup, rawGroup, List.find?]
    · have hb : (k == key) = false := beq_eq_false_iff_ne.mpr hk
      simpa [updateGroup, rawGroup, List.find?, hk, hb] using ih

theorem isSome_find?_updateGroup (g : GroupState) (key : String)
    (ps : List (Option CfnParameter)) :
    ((updateGroup g key ps).find? (fun e => e.1 == key)).isSome = true := by
  induction g with
  | nil => simp [updateGroup, List.find?]
  | cons hd tl ih =>
    obtain ⟨k, v⟩ := hd
    by_cases hk : k = key
    · subst hk
      simp [updateGroup, List.find?]
    · have hb : (k == key) = false := beq_eq_false_iff_ne.mpr hk
      simpa [updateGroup, List.find?, hk, hb] using ih

theorem rawGroup_registerFold (label : String) (calls : List (List (Option CfnParameter)))
    (g : GroupState) :
    rawGroup (calls.foldl (fun acc ps => addGroupParam acc [(label, ps)]) g) label
      = calls.reverse.flatten ++ rawGroup g label := by
  induction calls generalizing g with
  | nil => simp
  | cons c cs ih =>
    have hone : addGroupParam g [(label, c)] = updateGroup g label c := rfl
    calc rawGroup ((c :: cs).foldl (fun acc ps => addGroupParam acc [(label, ps)]) g) label
        = rawGroup (cs.foldl (fun acc ps => addGroupParam acc [(label, ps)])
            (updateGroup g label c)) label := by rw [List.foldl_cons, hone]
      _ = cs.reverse.flatten ++ rawGroup (updateGroup g label c) label := ih _
      _ = cs.reverse.flatten ++ (c ++ rawGroup g label) := by
            rw [rawGroup_updateGroup_self]
      _ = (c :: cs).reverse.flatten ++ rawGroup g label := by
            simp [List.reverse_cons, List.flatten_append, List.append_assoc]

theorem isSome_find?_registerFold (label : String)
    (calls : List (List (Option CfnParameter))) (g : GroupState)
    (h : (g.find? (fun e => e.1 == label)).isSome = true) :
    (((calls.foldl (fun acc ps => addGroupParam acc [(label, ps)]) g).find?
        (fun e => e.1 == label)).isSome) = true := by
  induction calls generalizing g with
  | nil => exact h
  | cons c cs ih =>
    have hone : addGroupParam g [(label, c)] = updateGroup g label c := rfl
    rw [List.foldl_cons, hone]
    exact ih _ (isSome_find?_updateGroup g label c)

theorem find?_exportGroups (g : GroupState) (label : String) :
    (exportGroups g).find? (fun e => e.1 == label)
      = (g.find? (fun e => e.1 == label)).map (fun e => (e.1, filtIds e.2)) := by
  induction g with
  | nil => rfl
  | cons hd tl ih =>
    obtain ⟨k, v⟩ := hd
    have hexp : exportGroups ((k, v) :: tl) = (k, filtIds v) :: exportGroups tl := rfl
    by_cases hk : k = label
    · have hb : (k == label) = true := beq_iff_eq.mpr hk
      rw [hexp]
      simp [List.find?, hb]
    · have hb : (k == label) = false := beq_eq_false_iff_ne.mpr hk
      rw [hexp]
      simp [List.find?, hb, ih]

theorem filtIds_append (a b : List (Option CfnParameter)) :
    filtIds (a ++ b) = filtIds a ++ filtIds b := by
  simp [filtIds]

theorem filtIds_flatten (L : List (List (Option CfnParameter))) :
    filtIds L.flatten = (L.map filtIds).flatten := by
  induction L with
  | nil => rfl
  | cons c cs ih => simp [filtIds_append, ih]

/-- C2: for every sequence of register calls on the same group label, the
group's exported identifier sequence equals the concatenation of each
call's filtered identifier lists in reverse call order — the most recent
call's identifiers first, earlier registrations after, and no
re-ordering within a single call's own list. -/
theorem claim_C2 (label : String) (calls : List (List (Option CfnParameter)))
    (h : calls ≠ []) :
    ((exportGroups (registerCalls label calls)).find? (fun e => e.1 == label)).map Prod.snd
      = some (((calls.map filtIds).reverse).flatten) := by
  obtain ⟨c, cs, rfl⟩ : ∃ c cs, calls = c :: cs := by
    cases calls with
    | nil => exact absurd rfl h
    | cons c cs => exact ⟨c, cs, rfl⟩
  have hone : addGroupParam ([] : GroupState) [(label, c)] = updateGroup [] label c := rfl
  have hfold : registerCalls label (c :: cs)
      = cs.foldl (fun acc ps => addGroupParam acc [(label, ps)]) (updateGroup [] label c) := by
    simp [registerCalls, List.foldl_cons, hone]
  have hsome : ((registerCalls label (c :: cs)).find? (fun e => e.1 == label)).isSome = true := by
    rw [hfold]
    exact isSome_find?_registerFold label cs _ (isSome_find?_updateGroup [] label c)
  obtain ⟨e, he⟩ := Option.isSome_iff_exists.mp hsome
  have hraw : rawGroup (registerCalls label (c :: cs)) label = (c :: cs).reverse.flatten := by
    simpa [registerCalls, rawGroup] using rawGroup_registerFold label (c :: cs) []
  have he2 : e.2 = (c :: cs).reverse.flatten := by
    rw [← hraw]
    simp [rawGroup, he]
  rw [find?_exportGroups, he]
  simp [he2, filtIds_append, filtIds_flatten, List.map_reverse]

/-- Witness for C2: two register calls on one label, the second call
containing an absent parameter slot, applied through the theorem. -/
theorem claim_C2_witness :
    ([[some certificateArnParam], [Option.none, some minContainersParam]] ≠
        ([] : List (List (Option CfnParameter))))
    ∧ ((exportGroups (registerCalls "G"
          [[some certificateArnParam], [Option.none, some minContainersParam]])).find?
          (fun e => e.1 == "G")).map Prod.snd
        = some ((([[some certificateArnParam],
            [Option.none, some minContainersParam]].map filtIds).reverse).flatten) :=
  ⟨by decide, claim_C2 "G" [[some certificateArnParam],
    [Option.none, some minContainersParam]] (by decide)⟩

/-- C3: for every registry state, the exported group structure never
contains an empty-string (or absent) parameter identifier — such entries
are dropped during export, and export is a total operation. -/
theorem claim_C3 (g : GroupState) (e : String × List String)
    (he : e ∈ exportGroups g) (id : String) (hid : id ∈ e.2) : id ≠ "" := by
  obtain ⟨a, ha, rfl⟩ := List.mem_map.mp he
  have hid2 : id ∈ (a.2.map paramIdOrEmpty).filter (fun s => s != "") := hid
  have h2 := (List.mem_filter.mp hid2).2
  simpa using h2

/-- Witness for C3: a registry holding an absent slot next to a real
parameter; the exported identifier examined is non-empty. -/
theorem claim_C3_witness :
    (("G", ["CertificateArn"]) ∈
        exportGroups (registerCalls "G" [[Option.none, some certificateArnParam]]))
    ∧ ("CertificateArn" ∈ (("G", ["CertificateArn"]) : String × List String).2)
    ∧ "CertificateArn" ≠ "" :=
  ⟨by decide, by decide,
    claim_C3 (registerCalls "G" [[Option.none, some certificateArnParam]])
      ("G", ["CertificateArn"]) (by decide) "CertificateArn" (by decide)⟩

/-- C1: for every combination of the two mode flags (including the
omitted-flag states) and every supplied valuation, the resolved settings
have the database-instance-class field set exactly when `auroraServerless`
is not truthy, and when set it resolves to the instance-class parameter's
resolved value: the supplied value, or the default `r5.large` when
unspecified; when `auroraServerless` is truthy the field is unset. -/
theorem claim_C1 (props : KeycloakStackProps) (v : Option String) (env : Env) :
    ((keycloakStackBuild props v).settings.databaseInstanceType.isSome
        = !flagTrue props.auroraServerless)
    ∧ (((keycloakStackBuild props v).settings.databaseInstanceType).map
          (fun it => resolveStrVal (keycloakStackBuild props v).params env
            it.instanceTypeIdentifier)
        = if flagTrue props.auroraServerless then Option.none
          else some (some ((env.strs "DatabaseInstanceType").getD "r5.large"))) := by
  obtain ⟨a, f⟩ := props
  rcases a with _ | (_ | _) <;> rcases f with _ | (_ | _) <;> refine ⟨rfl, ?_⟩ <;>
    first
      | rfl
      | (show some ((env.strs "DatabaseInstanceType").orElse (fun _ => some "r5.large"))
              = some (some ((env.strs "DatabaseInstanceType").getD "r5.large"))
         cases env.strs "DatabaseInstanceType" <;> rfl)

/-- Helper for C4: resolving a two-element selection built from
`Fn.select(0, …)` and `Fn.select(1, …)` against a declared list parameter
whose supplied list has at least two entries yields exactly the entries
at positions 0 and 1. -/
theorem resolveSelection_select_pair (P : List CfnParameter) (env : Env) (id : String)
    (p : CfnParameter) (hp : findParam P id = some p)
    (x y : String) (rest : List String) (hl : env.lists id = some (x :: y :: rest)) :
    resolveSelection P env { subnets := [StrVal.select 0 id, StrVal.select 1 id] }
      = some [x, y] := by
  simp [resolveSelection, resolveStrVals, resolveStrVal, hp, hl]

/-- C4: with `fromExistingVPC = true` and public, private and database
subnet-id lists each holding at least two entries, the resolved settings
select exactly two subnets per selection kind — the entries at positions
0 and 1 of the corresponding supplied list. -/
theorem claim_C4 (props : KeycloakStackProps) (v : Option String) (env : Env)
    (hvpc : props.fromExistingVPC = some true)
    (a b : String) (ps : List String)
    (hpub : env.lists "PubSubnets" = some (a :: b :: ps))
    (c d : String) (pr : List String)
    (hpriv : env.lists "PrivSubnets" = some (c :: d :: pr))
    (e f : String) (dr : List String)
    (hdb : env.lists "DBSubnets" = some (e :: f :: dr)) :
    (((keycloakStackBuild props v).settings.publicSubnets).map
        (fun sel => resolveSelection (keycloakStackBuild props v).params env sel)
      = some (some [a, b]))
    ∧ (((keycloakStackBuild props v).settings.privateSubnets).map
        (fun sel => resolveSelection (keycloakStackBuild props v).params env sel)
      = some (some [c, d]))
    ∧ (((keycloakStackBuild props v).settings.databaseSubnets).map
        (fun sel => resolveSelection (keycloakStackBuild props v).params env sel)
      = some (some [e, f]))
    ∧ (((keycloakStackBuild props v).settings.publicSubnets).map
        (fun sel => sel.subnets.length) = some 2)
    ∧ (((keycloakStackBuild props v).settings.privateSubnets).map
        (fun sel => sel.subnets.length) = some 2)
    ∧ (((keycloakStackBuild props v).settings.databaseSubnets).map
        (fun sel => sel.subnets.length) = some 2) := by
  obtain ⟨aflag, fflag⟩ := props
  simp only at hvpc
  subst hvpc
  rcases aflag with _ | (_ | _) <;>
    refine ⟨?_, ?_, ?_, rfl, rfl, rfl⟩ <;>
    first
      | (refine congrArg some
            (resolveSelection_select_pair _ env "PubSubnets" pubSubnetsParam ?_ a b ps hpub)
         rfl)
      | (refine congrArg some
            (resolveSelection_select_pair _ env "PrivSubnets" privSubnetsParam ?_ c d pr hpriv)
         rfl)
      | (refine congrArg some
            (resolveSelection_select_pair _ env "DBSubnets" dbSubnetsParam ?_ e f dr hdb)
         rfl)

/-- Witness for C4 at concrete flags and a concrete valuation with three
two-element subnet lists. -/
def witnessEnvC4 : Env :=
  { strs := fun _ => Option.none,
    lists := fun id =>
      if id = "PubSubnets" then some ["subnet-a", "subnet-b"]
      else if id = "PrivSubnets" then some ["subnet-c", "subnet-d"]
      else if id = "DBSubnets" then some ["subnet-e", "subnet-f"]
      else Option.none,
    nums := fun _ => Option.none }

/-- Witness for C4: the theorem applied at `fromExistingVPC = true` with
the concrete valuation above; the public selection resolves to the first
two supplied subnet ids. -/
theorem claim_C4_witness :
    (((keycloakStackBuild { fromExistingVPC := some true } Option.none).settings.publicSubnets).map
        (fun sel => resolveSelection
          (keycloakStackBuild { fromExistingVPC := some true } Option.none).params
          witnessEnvC4 sel)
      = some (some ["subnet-a", "subnet-b"]))
    ∧ (((keycloakStackBuild { fromExistingVPC := some true } Option.none).settings.databaseSubnets).map
        (fun sel => resolveSelection
          (keycloakStackBuild { fromExistingVPC := some true } Option.none).params
          witnessEnvC4 sel)
      = some (some ["subnet-e", "subnet-f"])) :=
  ⟨(claim_C4 { fromExistingVPC := some true } Option.none witnessEnvC4 rfl
      "subnet-a" "subnet-b" [] (by decide)
      "subnet-c" "subnet-d" [] (by decide)
      "subnet-e" "subnet-f" [] (by decide)).1,
   (claim_C4 { fromExistingVPC := some true } Option.none witnessEnvC4 rfl
      "subnet-a" "subnet-b" [] (by decide)
      "subnet-c" "subnet-d" [] (by decide)
      "subnet-e" "subnet-f" [] (by decide)).2.2.1⟩

/-- C5: the four network-related settings fields (vpc reference and the
three subnet selections) are all set together when `fromExistingVPC` is
truthy and all unset together otherwise, for every flag combination. -/
theorem claim_C5 (props : KeycloakStackProps) (v : Option String) :
    ((keycloakStackBuild props v).settings.vpc.isSome = flagTrue props.fromExistingVPC)
    ∧ ((keycloakStackBuild props v).settings.publicSubnets.isSome
        = flagTrue props.fromExistingVPC)
    ∧ ((keycloakStackBuild props v).settings.privateSubnets.isSome
        = flagTrue props.fromExistingVPC)
    ∧ ((keycloakStackBuild props v).settings.databaseSubnets.isSome
        = flagTrue props.fromExistingVPC) := by
  obtain ⟨a, f⟩ := props
  rcases a with _ | (_ | _) <;> rcases f with _ | (_ | _) <;> exact ⟨rfl, rfl, rfl, rfl⟩

/-- C6 (amended): for every flag combination the version-selector
parameter is declared as a plain string parameter — its description lists
the supported versions but no allowed-values constraint is attached, so
the template does not restrict the supplied value to that set — with the
stated default `cb.15.0.2`, and it is registered into the group
`Keycloak Version`. -/
theorem claim_C6 (props : KeycloakStackProps) (v : Option String) :
    (((keycloakStackBuild props v).params.find?
        (fun p => p.logicalId == "KeycloakVersion")) = some keycloakVersionParam)
    ∧ (keycloakVersionParam.props.type = "String")
    ∧ (keycloakVersionParam.props.defaultValue = CfnDefault.str "cb.15.0.2")
    ∧ (keycloakVersionParam.props.allowedValues = Option.none)
    ∧ (((exportGroups (keycloakStackBuild props v).paramGroup).find?
          (fun e => e.1 == "Keycloak Version")).map Prod.snd
        = some ["KeycloakVersion"]) := by
  obtain ⟨a, f⟩ := props
  rcases a with _ | (_ | _) <;> rcases f with _ | (_ | _) <;>
    exact ⟨rfl, rfl, rfl, rfl, rfl⟩

/-- C6 counterexample: at the concrete input of omitted flags, the
declared `Keycloak Version` parameter carries no allowed-values
constraint (`allowedValues` is unset), so it is not an enumerated string
restricted to the supported product versions as the claim states — any
string passes template validation for it. -/
theorem claim_C6_cex :
    ((keycloakStackBuild {} Option.none).params.find?
        (fun p => p.logicalId == "KeycloakVersion")).map
        (fun p => p.props.allowedValues.isSome)
      = some false := rfl

/-- C7: two runs of the declaration-and-resolution sequence with
identical mode flags yield structurally identical declared parameters,
group state, resolved settings and composer props, even when the
interpolated process-environment version string differs between the two
runs — no hidden counter or time-dependent state exists. -/
theorem claim_C7 (p1 p2 : KeycloakStackProps) (v1 v2 : Option String)
    (ha : p1.auroraServerless = p2.auroraServerless)
    (hf : p1.fromExistingVPC = p2.fromExistingVPC) :
    ((keycloakStackBuild p1 v1).settings = (keycloakStackBuild p2 v2).settings)
    ∧ ((keycloakStackBuild p1 v1).params = (keycloakStackBuild p2 v2).params)
    ∧ ((keycloakStackBuild p1 v1).paramGroup = (keycloakStackBuild p2 v2).paramGroup)
    ∧ ((keycloakStackBuild p1 v1).composer = (keycloakStackBuild p2 v2).composer) := by
  obtain ⟨a1, f1⟩ := p1
  obtain ⟨a2, f2⟩ := p2
  simp only at ha hf
  subst ha
  subst hf
  rcases a1 with _ | (_ | _) <;> rcases f1 with _ | (_ | _) <;> exact ⟨rfl, rfl, rfl, rfl⟩

/-- Witness for C7: two runs with equal flags but different
process-environment version strings produce the same settings. -/
theorem claim_C7_witness :
    (keycloakStackBuild { auroraServerless := some true } (some "v1")).settings
      = (keycloakStackBuild { auroraServerless := some true } (some "v2")).settings :=
  (claim_C7 { auroraServerless := some true } { auroraServerless := some true }
    (some "v1") (some "v2") rfl rfl).1

/-- C8: for every flag combination and version string, the
stickiness-duration handed to the composer is the constant 7 days; no
declared parameter feeds it and no caller input changes it. -/
theorem claim_C8 (props : KeycloakStackProps) (v : Option String) :
    (keycloakStackBuild props v).composer.stickinessCookieDuration = Duration.days 7 := by
  obtain ⟨a, f⟩ := props
  rcases a with _ | (_ | _) <;> rcases f with _ | (_ | _) <;> rfl

/-- Both mode flags explicitly false. -/
def bothFalseProps : KeycloakStackProps :=
  { auroraServerless := some false, fromExistingVPC := some false }

/-- C9: constructing with the props argument omitted (both flags absent)
behaves exactly as constructing with both flags explicitly false: the
same parameters, groups and settings result; the database instance-class
parameter is declared and its settings field set, and no network
parameter is declared while all four network fields stay unset. -/
theorem claim_C9 (v : Option String) :
    ((keycloakStackBuild {} v).params = (keycloakStackBuild bothFalseProps v).params)
    ∧ ((keycloakStackBuild {} v).settings = (keycloakStackBuild bothFalseProps v).settings)
    ∧ ((keycloakStackBuild {} v).paramGroup
        = (keycloakStackBuild bothFalseProps v).paramGroup)
    ∧ ((keycloakStackBuild {} v).settings.databaseInstanceType.isSome = true)
    ∧ ((keycloakStackBuild {} v).settings.vpc = Option.none)
    ∧ ((keycloakStackBuild {} v).settings.publicSubnets = Option.none)
    ∧ ((keycloakStackBuild {} v).settings.privateSubnets = Option.none)
    ∧ ((keycloakStackBuild {} v).settings.databaseSubnets = Option.none)
    ∧ (((keycloakStackBuild {} v).params.map
          (fun p => p.logicalId)).contains "DatabaseInstanceType" = true)
    ∧ (((keycloakStackBuild {} v).params.map
          (fun p => p.logicalId)).contains "VpcId" = false)
    ∧ (((keycloakStackBuild {} v).params.map
          (fun p => p.logicalId)).contains "PubSubnets" = false)
    ∧ (((keycloakStackBuild {} v).params.map
          (fun p => p.logicalId)).contains "PrivSubnets" = false)
    ∧ (((keycloakStackBuild {} v).params.map
          (fun p => p.logicalId)).contains "DBSubnets" = false) :=
  ⟨rfl, rfl, rfl, rfl, rfl, rfl, rfl, rfl, rfl, rfl, rfl, rfl, rfl⟩

/-- C10: for every flag combination, the node-count handed to the
composer is the same deferred value as the autoscaling minimum bound —
both reference the `MinContainers` parameter — and it resolves to the
supplied minimum-container count, or its declared default 2 when
unspecified. -/
theorem claim_C10 (props : KeycloakStackProps) (v : Option String) (env : Env) :
    ((keycloakStackBuild props v).composer.nodeCount
        = (keycloakStackBuild props v).composer.autoScaleTask.min)
    ∧ ((keycloakStackBuild props v).composer.nodeCount = NumVal.paramRef "MinContainers")
    ∧ (resolveNumVal (keycloakStackBuild props v).params env
          (keycloakStackBuild props v).composer.nodeCount
        = some ((env.nums "MinContainers").getD 2)) := by
  obtain ⟨a, f⟩ := props
  rcases a with _ | (_ | _) <;> rcases f with _ | (_ | _) <;> refine ⟨rfl, rfl, ?_⟩ <;>
    (show ((env.nums "MinContainers").orElse (fun _ => some 2))
        = some ((env.nums "MinContainers").getD 2)
     cases env.nums "MinContainers" <;> rfl)

end KeycloakOnAws
